import Mathlib

/-!
Verification of the LLVM-C tutorial programs of this repository.

The repository holds three C programs (src/LLVM-C/Chapter1/sum.c,
src/LLVM-C/Chapter2/sum.c, src/LLVM-C/sum.c). Each builds, through the
LLVM C API, a module named "my_module" holding one function
int sum(int a, int b) returning a + b, then verifies and/or emits it.

The embedding below models, faithfully to the C sources:
  - the IR objects the builder calls construct (module, function, basic
    block, instructions), with the LLVM C API entry points as pure state
    transformers;
  - each program main as a function from the command-line arguments and
    an oracle (the results the external LLVM library returns for each
    fallible call) to the module it builds, the ordered trace of library
    calls and prints it performs, and its exit status;
  - uninitialized C pointer variables as Option values equal to none:
    a read of such a variable yields the undefined value none.
-/

namespace LLVMC

/-- LLVM integer types, as produced by LLVMInt32Type. Only integer types
occur in these programs. -/
inductive LLVMType
  | int (bits : Nat)
  deriving DecidableEq, Repr

/-- A function type as built by the LLVMFunctionType C call. -/
structure FnType where
  ret : LLVMType
  params : List LLVMType
  isVarArg : Bool
  deriving DecidableEq, Repr

/-- LLVM values as returned by the builder calls used in the sources:
function parameters (LLVMGetParam) and instruction results (LLVMBuildAdd). -/
inductive LLVMValue
  | param (fn : String) (i : Nat)
  | instrResult (idx : Nat)
  deriving DecidableEq, Repr

/-- The instructions the programs build: LLVMBuildAdd and LLVMBuildRet. -/
inductive Instr
  | add (lhs rhs : LLVMValue) (name : String)
  | ret (v : LLVMValue)
  deriving DecidableEq, Repr

structure LLVMBasicBlock where
  name : String
  instrs : List Instr
  deriving DecidableEq, Repr

structure LLVMFunction where
  name : String
  type : FnType
  blocks : List LLVMBasicBlock
  deriving DecidableEq, Repr

structure LLVMModule where
  name : String
  functions : List LLVMFunction
  deriving DecidableEq, Repr

/-- The builder (LLVMBuilderRef): its insertion point is a
(function name, block name) pair once positioned, none before. -/
structure LLVMBuilder where
  pos : Option (String × String)
  deriving DecidableEq, Repr

def LLVMInt32Type : LLVMType := .int 32

/-- LLVMFunctionType(ret, paramTypes, paramCount, isVarArg): the C call
reads paramCount entries of the parameter array; isVarArg is an int flag. -/
def LLVMFunctionType (ret : LLVMType) (paramTypes : List LLVMType)
    (paramCount : Nat) (isVarArg : Nat) : FnType :=
  ⟨ret, paramTypes.take paramCount, isVarArg != 0⟩

def LLVMModuleCreateWithName (name : String) : LLVMModule :=
  ⟨name, []⟩

/-- LLVMAddFunction returns (the ref to) the new function; the ref is
modelled by the function name. -/
def LLVMAddFunction (m : LLVMModule) (name : String) (ty : FnType) :
    LLVMModule × String :=
  (⟨m.name, m.functions ++ [⟨name, ty, []⟩]⟩, name)

/-- LLVMAppendBasicBlock appends an empty block to the named function and
returns the block ref, modelled as (function name, block name). -/
def LLVMAppendBasicBlock (m : LLVMModule) (fn : String) (name : String) :
    LLVMModule × (String × String) :=
  (⟨m.name, m.functions.map fun f =>
      if f.name = fn then ⟨f.name, f.type, f.blocks ++ [⟨name, []⟩]⟩ else f⟩,
   (fn, name))

def LLVMCreateBuilder : LLVMBuilder := ⟨none⟩

def LLVMPositionBuilderAtEnd (b : LLVMBuilder) (blk : String × String) :
    LLVMBuilder :=
  ⟨some blk⟩

def LLVMGetParam (fn : String) (i : Nat) : LLVMValue := .param fn i

/-- Append an instruction at the builder insertion point (an unpositioned
builder leaves the module unchanged; every builder in the sources is
positioned before use). -/
def appendInstr (m : LLVMModule) (b : LLVMBuilder) (ins : Instr) : LLVMModule :=
  match b.pos with
  | none => m
  | some (fn, blk) =>
    ⟨m.name, m.functions.map fun f =>
      if f.name = fn then
        ⟨f.name, f.type, f.blocks.map fun bb =>
          if bb.name = blk then ⟨bb.name, bb.instrs ++ [ins]⟩ else bb⟩
      else f⟩

/-- The instruction list of the block the builder points at. -/
def currentBlockInstrs (m : LLVMModule) (b : LLVMBuilder) : List Instr :=
  match b.pos with
  | none => []
  | some (fn, blk) =>
    match m.functions.find? (fun f => f.name = fn) with
    | none => []
    | some f =>
      match f.blocks.find? (fun bb => bb.name = blk) with
      | none => []
      | some bb => bb.instrs

/-- LLVMBuildAdd appends an add instruction and returns its result value. -/
def LLVMBuildAdd (m : LLVMModule) (b : LLVMBuilder) (lhs rhs : LLVMValue)
    (name : String) : LLVMModule × LLVMValue :=
  (appendInstr m b (.add lhs rhs name),
   .instrResult (currentBlockInstrs m b).length)

def LLVMBuildRet (m : LLVMModule) (b : LLVMBuilder) (v : LLVMValue) :
    LLVMModule :=
  appendInstr m b (.ret v)

/-- Result of the IR-building prologue: the module and the builder. -/
structure BuildResult where
  mod : LLVMModule
  builder : LLVMBuilder
  deriving DecidableEq, Repr

/-- The IR-building prologue, lines 20 to 33 of src/LLVM-C/Chapter1/sum.c
and, verbatim identical, of src/LLVM-C/Chapter2/sum.c and
src/LLVM-C/sum.c: module creation, function prototype creation, builder
creation, and the two instructions. -/
def buildSumPrologue : BuildResult :=
  let mod := LLVMModuleCreateWithName "my_module"
  let param_types := [LLVMInt32Type, LLVMInt32Type]
  let ret_type := LLVMFunctionType LLVMInt32Type param_types 2 0
  let (mod, sum) := LLVMAddFunction mod "sum" ret_type
  let (mod, entry) := LLVMAppendBasicBlock mod sum "entry"
  let builder := LLVMCreateBuilder
  let builder := LLVMPositionBuilderAtEnd builder entry
  let (mod, tmp) := LLVMBuildAdd mod builder (LLVMGetParam sum 0)
      (LLVMGetParam sum 1) "tmp"
  let mod := LLVMBuildRet mod builder tmp
  ⟨mod, builder⟩

/-- Value of an operand given the argument list and the results of the
already-executed instructions of the block. -/
def evalValue (fn : String) (args : List Nat) (results : List Nat) :
    LLVMValue → Nat
  | .param f i => if f = fn then args.getD i 0 else 0
  | .instrResult i => results.getD i 0

/-- Run a straight-line instruction list: add computes modulo 2 to the
bit width (two-complement machine arithmetic), ret yields the result. -/
def runInstrs (w : Nat) (fn : String) (args : List Nat) :
    List Instr → List Nat → Option Nat
  | [], _ => none
  | .add l r _ :: rest, results =>
      runInstrs w fn args rest
        (results ++ [(evalValue fn args results l + evalValue fn args results r) % 2 ^ w])
  | .ret v :: _, results => some (evalValue fn args results v)

/-- Evaluate a function on its arguments: run its entry block at the bit
width of the return type. -/
def evalFunction (f : LLVMFunction) (args : List Nat) : Option Nat :=
  match f.type.ret with
  | .int w =>
    match f.blocks with
    | [] => none
    | b :: _ => runInstrs w f.name args b.instrs []

/-- LLVMCodeGenFileType values used by the sources. -/
inductive LLVMCodeGenFileType
  | LLVMObjectFile
  | LLVMAssemblyFile
  deriving DecidableEq, Repr

/-- The results the external LLVM library returns for each fallible call a
program makes. The programs are deterministic given these. -/
structure Oracle where
  verifyResult : Int
  writeBitcodeResult : Int
  getTargetResult : Int
  emitObjResult : Int
  emitAsmResult : Int
  emitFileResult : Int
  deriving DecidableEq, Repr

/-- One step of a program run: a call into the LLVM library (with the
arguments the program passes and the result the library returned) or a
print. An Option String argument models the string a char pointer
dereferences to, none when that read is of an uninitialized variable; the
Option Unit argument of createTargetMachine models the target argument,
none when it comes from an uninitialized variable. -/
inductive Event
  | verifyModule (modName : String) (result : Int)
  | disposeMessage
  | writeBitcodeToFile (modName fileName : String) (result : Int)
  | writeBitcodeToMemoryBuffer (modName : String)
  | initializeAllTargets
  | initializeAllTargetMCs
  | initializeAllTargetInfos
  | initializeAllAsmPrinters
  | getTargetFromTriple (triple : String) (errPtr : Option String) (result : Int)
  | createTargetMachine (target : Option Unit) (triple cpu features : String)
  | targetMachineEmitToFile (modName fileName : String)
      (ft : LLVMCodeGenFileType) (errPtr : Option String) (result : Int)
  | targetMachineEmitToMemoryBuffer (modName : String)
      (ft : LLVMCodeGenFileType) (errPtr : Option String)
  | disposeBuilder
  | printfStdout (s : Option String)
  | fprintfStderr (s : String)
  deriving DecidableEq, Repr

/-- A whole run of a program main: the module it built, the ordered trace
of library calls and prints, and the process exit status. -/
structure RunResult where
  mod : LLVMModule
  events : List Event
  exitCode : Int
  deriving DecidableEq, Repr

/-- src/LLVM-C/Chapter1/sum.c, main (lines 18 to 47): build, verify,
write bitcode to "sum.bc" printing to stderr on failure, dispose the
builder. main has no return statement, so per C semantics reaching its
end yields exit status 0. -/
def chapter1_main (argc : Nat) (argv : List String) (o : Oracle) : RunResult :=
  let b := buildSumPrologue
  let mod := b.mod
  let events := [Event.verifyModule mod.name o.verifyResult, Event.disposeMessage]
  let events := events ++ [Event.writeBitcodeToFile mod.name "sum.bc" o.writeBitcodeResult]
  let events := events ++
    (if o.writeBitcodeResult ≠ 0 then
      [Event.fprintfStderr "error writing bitcode to file, skipping\n"]
     else [])
  let events := events ++ [Event.disposeBuilder]
  ⟨mod, events, 0⟩

/-- src/LLVM-C/Chapter2/sum.c, main (lines 18 to 105): build, print the
triple, initialize targets, look the target up (errPtrTriple is
uninitialized, hence its dereference on the error branch is none), create
the target machine, emit object and assembly files printing the
uninitialized error pointers dereference to stdout on failure, then
verify, and dispose the builder. -/
def chapter2_main (argc : Nat) (argv : List String) (o : Oracle) : RunResult :=
  let b := buildSumPrologue
  let mod := b.mod
  let triple := "x86_64"
  let cpu := ""
  let events := [Event.printfStdout (some (triple ++ "\n"))]
  let events := events ++
    [Event.initializeAllTargets, Event.initializeAllTargetMCs,
     Event.initializeAllTargetInfos, Event.initializeAllAsmPrinters]
  let errPtrTriple : Option String := none
  let resTriple := o.getTargetResult
  let events := events ++ [Event.getTargetFromTriple triple errPtrTriple resTriple]
  let targetRef : Option Unit := if resTriple = 0 then some () else none
  let events := events ++
    (if resTriple ≠ 0 then [Event.printfStdout errPtrTriple] else [])
  let events := events ++ [Event.createTargetMachine targetRef triple cpu ""]
  let errPtrFileObj : Option String := none
  let resFileObj := o.emitObjResult
  let events := events ++
    [Event.targetMachineEmitToFile mod.name "sum_llvm.o"
      .LLVMObjectFile errPtrFileObj resFileObj]
  let events := events ++
    (if resFileObj ≠ 0 then [Event.printfStdout errPtrFileObj] else [])
  let errPtrFileAsm : Option String := none
  let resFileAsm := o.emitAsmResult
  let events := events ++
    [Event.targetMachineEmitToFile mod.name "sum_llvm.asm"
      .LLVMAssemblyFile errPtrFileAsm resFileAsm]
  let events := events ++
    (if resFileAsm ≠ 0 then [Event.printfStdout errPtrFileAsm] else [])
  let events := events ++ [Event.verifyModule mod.name o.verifyResult, Event.disposeMessage]
  let events := events ++ [Event.disposeBuilder]
  ⟨mod, events, 0⟩

/-- src/LLVM-C/sum.c, main (lines 18 to 87): build, verify, write bitcode
to "sum.bc" printing to stderr on failure, write bitcode to a memory
buffer, print the triple, look the target up through the UNINITIALIZED
pointer targetRef (so the later dereference of targetRef passed to
createTargetMachine is none, and the dereference of the uninitialized
errPtrTriple on the res equal 1 branch is none), print res, emit to
"spec_sum.bc" and to a memory buffer with uninitialized error pointers
and ignored results, and dispose the builder. -/
def toplevel_main (argc : Nat) (argv : List String) (o : Oracle) : RunResult :=
  let b := buildSumPrologue
  let mod := b.mod
  let events := [Event.verifyModule mod.name o.verifyResult, Event.disposeMessage]
  let events := events ++ [Event.writeBitcodeToFile mod.name "sum.bc" o.writeBitcodeResult]
  let events := events ++
    (if o.writeBitcodeResult ≠ 0 then
      [Event.fprintfStderr "error writing bitcode to file, skipping\n"]
     else [])
  let events := events ++ [Event.writeBitcodeToMemoryBuffer mod.name]
  let triple := "x86_64"
  let cpu := ""
  let events := events ++ [Event.printfStdout (some (triple ++ "\n"))]
  let targetRef : Option Unit := none
  let errPtrTriple : Option String := none
  let res := o.getTargetResult
  let events := events ++ [Event.getTargetFromTriple triple errPtrTriple res]
  let events := events ++
    (if res = 1 then [Event.printfStdout errPtrTriple] else [])
  let events := events ++ [Event.printfStdout (some (toString res ++ "\n"))]
  let events := events ++ [Event.createTargetMachine targetRef triple cpu ""]
  let errPtrFile : Option String := none
  let events := events ++
    [Event.targetMachineEmitToFile mod.name "spec_sum.bc"
      .LLVMObjectFile errPtrFile o.emitFileResult]
  let errPtrMem : Option String := none
  let events := events ++
    [Event.targetMachineEmitToMemoryBuffer mod.name .LLVMObjectFile errPtrMem]
  let events := events ++ [Event.disposeBuilder]
  ⟨mod, events, 0⟩

/-- Is the event the module verification call. -/
def Event.isVerify : Event → Bool
  | .verifyModule _ _ => true
  | _ => false

/-- Is the event an emission step: bitcode to file or memory buffer, or a
target-machine emit to file or memory buffer. -/
def Event.isEmission : Event → Bool
  | .writeBitcodeToFile _ _ _ => true
  | .writeBitcodeToMemoryBuffer _ => true
  | .targetMachineEmitToFile _ _ _ _ _ => true
  | .targetMachineEmitToMemoryBuffer _ _ _ => true
  | _ => false

/-- Is the event a print, to stdout or to stderr. -/
def Event.isPrint : Event → Bool
  | .printfStdout _ => true
  | .fprintfStderr _ => true
  | _ => false

/-- Is the event a print to stderr. -/
def Event.isStderr : Event → Bool
  | .fprintfStderr _ => true
  | _ => false

/-- An oracle on which every library call succeeds. -/
def oracleAllOk : Oracle := ⟨0, 0, 0, 0, 0, 0⟩

/-- An oracle on which the target lookup fails with result 1 and
everything else succeeds. -/
def oracleTripleFail : Oracle := ⟨0, 0, 1, 0, 0, 0⟩

/-- An oracle on which the target lookup and both target-machine emits
fail. -/
def oracleAllFail : Oracle := ⟨0, 0, 1, 1, 1, 0⟩

/-- The function the prologue builds, written out. -/
def sumFunction : LLVMFunction :=
  ⟨"sum", ⟨.int 32, [.int 32, .int 32], false⟩,
   [⟨"entry", [.add (.param "sum" 0) (.param "sum" 1) "tmp",
               .ret (.instrResult 0)]⟩]⟩

/-- C1: every one of the three programs constructs an LLVM module named
"my_module" containing exactly one function named "sum", of non-variadic
type with exactly two 32-bit integer parameters and a 32-bit integer
return, whose single basic block "entry" returns the addition of
parameter 0 and parameter 1: on arguments a and b it evaluates to
(a + b) modulo 2 to the 32, the machine addition of two ints. -/
theorem c1_sum_module_built : ∀ (argc : Nat) (argv : List String) (o : Oracle),
    ∃ f : LLVMFunction,
      ((chapter1_main argc argv o).mod = ⟨"my_module", [f]⟩ ∧
       (chapter2_main argc argv o).mod = ⟨"my_module", [f]⟩ ∧
       (toplevel_main argc argv o).mod = ⟨"my_module", [f]⟩) ∧
      f.name = "sum" ∧
      f.type = ⟨.int 32, [.int 32, .int 32], false⟩ ∧
      (∃ blk, f.blocks = [blk] ∧ blk.name = "entry") ∧
      ∀ a b : Nat, evalFunction f [a, b] = some ((a + b) % 2 ^ 32) := by
  intro argc argv o
  refine ⟨sumFunction, ⟨rfl, rfl, rfl⟩, rfl, rfl, ⟨_, rfl, rfl⟩, ?_⟩
  intro a b
  simp [sumFunction, evalFunction, runInstrs, evalValue]

/-- C6: every run of each program that reaches the end of main exits with
status 0, whatever the library calls returned: no error result reaches
the exit status. -/
theorem c6_exit_status_zero : ∀ (argc : Nat) (argv : List String) (o : Oracle),
    (chapter1_main argc argv o).exitCode = 0 ∧
    (chapter2_main argc argv o).exitCode = 0 ∧
    (toplevel_main argc argv o).exitCode = 0 := by
  intro argc argv o
  exact ⟨rfl, rfl, rfl⟩

/-- The prologue computes to the expected module and positioned builder. -/
theorem buildSumPrologue_eq :
    buildSumPrologue = ⟨⟨"my_module", [sumFunction]⟩, ⟨some ("sum", "entry")⟩⟩ := by
  rfl

/-- C4: across the repository the module is emitted in all three forms:
bitcode file "sum.bc" via LLVMWriteBitcodeToFile (Chapter1 and the
top-level program), an object file via LLVMTargetMachineEmitToFile with
LLVMObjectFile, and an assembly file via LLVMTargetMachineEmitToFile with
LLVMAssemblyFile (Chapter2). -/
theorem c4_all_three_emission_forms : ∀ (argc : Nat) (argv : List String) (o : Oracle),
    Event.writeBitcodeToFile "my_module" "sum.bc" o.writeBitcodeResult
      ∈ (chapter1_main argc argv o).events ∧
    Event.writeBitcodeToFile "my_module" "sum.bc" o.writeBitcodeResult
      ∈ (toplevel_main argc argv o).events ∧
    Event.targetMachineEmitToFile "my_module" "sum_llvm.o"
        .LLVMObjectFile none o.emitObjResult ∈ (chapter2_main argc argv o).events ∧
    Event.targetMachineEmitToFile "my_module" "sum_llvm.asm"
        .LLVMAssemblyFile none o.emitAsmResult ∈ (chapter2_main argc argv o).events := by
  intro argc argv o
  refine ⟨?_, ?_, ?_, ?_⟩ <;>
    simp [chapter1_main, chapter2_main, toplevel_main, buildSumPrologue_eq, sumFunction]

/-- C5: in Chapter1 and the top-level program the stderr message
"error writing bitcode to file, skipping" is printed exactly when
LLVMWriteBitcodeToFile returns nonzero, and in either case execution
continues to the end of main: the last event is the builder disposal. -/
theorem c5_bitcode_error_message : ∀ (argc : Nat) (argv : List String) (o : Oracle),
    ((Event.fprintfStderr "error writing bitcode to file, skipping\n"
        ∈ (chapter1_main argc argv o).events) ↔ o.writeBitcodeResult ≠ 0) ∧
    ((Event.fprintfStderr "error writing bitcode to file, skipping\n"
        ∈ (toplevel_main argc argv o).events) ↔ o.writeBitcodeResult ≠ 0) ∧
    (chapter1_main argc argv o).events.getLast? = some .disposeBuilder ∧
    (toplevel_main argc argv o).events.getLast? = some .disposeBuilder := by
  intro argc argv o
  by_cases h : o.writeBitcodeResult = 0 <;>
    by_cases h2 : o.getTargetResult = 1 <;>
      simp [chapter1_main, toplevel_main, buildSumPrologue_eq, sumFunction, h, h2]

/-- C7: each main is a finite straight-line sequence of calls, so every
run performs a bounded number of steps: the trace lengths are bounded by
constants independent of the oracle (5, 15 and 13 events). -/
theorem c7_straight_line_bounded : ∀ (argc : Nat) (argv : List String) (o : Oracle),
    (chapter1_main argc argv o).events.length ≤ 5 ∧
    (chapter2_main argc argv o).events.length ≤ 15 ∧
    (toplevel_main argc argv o).events.length ≤ 13 := by
  intro argc argv o
  refine ⟨?_, ?_, ?_⟩ <;>
    simp [chapter1_main, chapter2_main, toplevel_main,
          buildSumPrologue_eq, sumFunction] <;>
      split <;> simp <;> split <;> simp <;> split <;> simp

/-- C10: the programs never read argc or argv: two runs with different
command-line arguments are identical, and the fixed file names "sum.bc",
"sum_llvm.o", "sum_llvm.asm", "spec_sum.bc" and the hard-coded triple
"x86_64" are used on every run. -/
theorem c10_argv_independent :
    ∀ (argc1 : Nat) (argv1 : List String) (argc2 : Nat) (argv2 : List String) (o : Oracle),
    chapter1_main argc1 argv1 o = chapter1_main argc2 argv2 o ∧
    chapter2_main argc1 argv1 o = chapter2_main argc2 argv2 o ∧
    toplevel_main argc1 argv1 o = toplevel_main argc2 argv2 o ∧
    Event.writeBitcodeToFile "my_module" "sum.bc" o.writeBitcodeResult
      ∈ (chapter1_main argc1 argv1 o).events ∧
    Event.targetMachineEmitToFile "my_module" "sum_llvm.o"
        .LLVMObjectFile none o.emitObjResult ∈ (chapter2_main argc1 argv1 o).events ∧
    Event.targetMachineEmitToFile "my_module" "sum_llvm.asm"
        .LLVMAssemblyFile none o.emitAsmResult ∈ (chapter2_main argc1 argv1 o).events ∧
    Event.targetMachineEmitToFile "my_module" "spec_sum.bc"
        .LLVMObjectFile none o.emitFileResult ∈ (toplevel_main argc1 argv1 o).events ∧
    Event.getTargetFromTriple "x86_64" none o.getTargetResult
      ∈ (chapter2_main argc1 argv1 o).events ∧
    Event.getTargetFromTriple "x86_64" none o.getTargetResult
      ∈ (toplevel_main argc1 argv1 o).events := by
  intro argc1 argv1 argc2 argv2 o
  refine ⟨rfl, rfl, rfl, ?_, ?_, ?_, ?_, ?_, ?_⟩ <;>
    simp [chapter1_main, chapter2_main, toplevel_main, buildSumPrologue_eq, sumFunction]

/-- C2 counterexample: the claim says verification precedes every
emission in every program, but in a run of the Chapter2 program (here
with every library call succeeding) both verification and emission events
occur and the first emission comes strictly before the verification. -/
theorem c2_counterexample_chapter2_emits_first :
    (chapter2_main 0 [] oracleAllOk).events.any Event.isEmission = true ∧
    (chapter2_main 0 [] oracleAllOk).events.any Event.isVerify = true ∧
    (chapter2_main 0 [] oracleAllOk).events.findIdx Event.isEmission <
      (chapter2_main 0 [] oracleAllOk).events.findIdx Event.isVerify := by
  refine ⟨by decide, by decide, by decide⟩

/-- C2 amended: in Chapter1 and the top-level program the verification
call precedes every emission step, but in Chapter2 both target-machine
emissions (object then assembly) precede the verification call: the
subsequence of verification and emission events of each trace is, in
order, verify then emissions for Chapter1 and the top-level program, and
emissions then verify for Chapter2. -/
theorem c2_amended_verify_emit_order : ∀ (argc : Nat) (argv : List String) (o : Oracle),
    ((chapter1_main argc argv o).events.filter (fun e => e.isVerify || e.isEmission) =
      [.verifyModule "my_module" o.verifyResult,
       .writeBitcodeToFile "my_module" "sum.bc" o.writeBitcodeResult]) ∧
    ((toplevel_main argc argv o).events.filter (fun e => e.isVerify || e.isEmission) =
      [.verifyModule "my_module" o.verifyResult,
       .writeBitcodeToFile "my_module" "sum.bc" o.writeBitcodeResult,
       .writeBitcodeToMemoryBuffer "my_module",
       .targetMachineEmitToFile "my_module" "spec_sum.bc" .LLVMObjectFile none o.emitFileResult,
       .targetMachineEmitToMemoryBuffer "my_module" .LLVMObjectFile none]) ∧
    ((chapter2_main argc argv o).events.filter (fun e => e.isVerify || e.isEmission) =
      [.targetMachineEmitToFile "my_module" "sum_llvm.o" .LLVMObjectFile none o.emitObjResult,
       .targetMachineEmitToFile "my_module" "sum_llvm.asm" .LLVMAssemblyFile none o.emitAsmResult,
       .verifyModule "my_module" o.verifyResult]) := by
  intro argc argv o
  refine ⟨?_, ?_, ?_⟩
  · by_cases h1 : o.writeBitcodeResult = 0 <;>
      simp [chapter1_main, buildSumPrologue_eq, sumFunction, h1,
            Event.isVerify, Event.isEmission]
  · by_cases h1 : o.writeBitcodeResult = 0 <;>
      by_cases h2 : o.getTargetResult = 1 <;>
        simp [toplevel_main, buildSumPrologue_eq, sumFunction, h1, h2,
              Event.isVerify, Event.isEmission]
  · by_cases h3 : o.getTargetResult = 0 <;>
      by_cases h4 : o.emitObjResult = 0 <;>
        by_cases h5 : o.emitAsmResult = 0 <;>
          simp [chapter2_main, buildSumPrologue_eq, sumFunction, h3, h4, h5,
                Event.isVerify, Event.isEmission]

/-- C3 counterexample: the claim says the only reaction to a detected
error is a print to standard error; but in a Chapter2 run whose target
lookup fails the reaction is a print to standard output, and nothing is
ever printed to standard error. -/
theorem c3_counterexample_stdout_reaction :
    Event.printfStdout none ∈ (chapter2_main 0 [] oracleTripleFail).events ∧
    (chapter2_main 0 [] oracleTripleFail).events.any Event.isStderr = false := by
  refine ⟨by decide, by decide⟩

/-- C3 amended: the only reaction to every detected error is a print and
execution always continues to the end of main: the prints of each trace
are exactly the per-failure messages (to standard error for the
bitcode-write failure of Chapter1 and the top-level program, to standard
output for Chapter2 failures and the top-level target-lookup failure,
plus the unconditional triple and result prints), and the last event is
always the builder disposal. -/
theorem c3_amended_print_and_continue : ∀ (argc : Nat) (argv : List String) (o : Oracle),
    ((chapter1_main argc argv o).events.filter Event.isPrint =
       (if o.writeBitcodeResult ≠ 0 then
          [.fprintfStderr "error writing bitcode to file, skipping\n"] else []) ∧
     (chapter1_main argc argv o).events.getLast? = some .disposeBuilder) ∧
    ((chapter2_main argc argv o).events.filter Event.isPrint =
       [.printfStdout (some ("x86_64" ++ "\n"))] ++
       (if o.getTargetResult ≠ 0 then [.printfStdout none] else []) ++
       (if o.emitObjResult ≠ 0 then [.printfStdout none] else []) ++
       (if o.emitAsmResult ≠ 0 then [.printfStdout none] else []) ∧
     (chapter2_main argc argv o).events.getLast? = some .disposeBuilder) ∧
    ((toplevel_main argc argv o).events.filter Event.isPrint =
       (if o.writeBitcodeResult ≠ 0 then
          [.fprintfStderr "error writing bitcode to file, skipping\n"] else []) ++
       [.printfStdout (some ("x86_64" ++ "\n"))] ++
       (if o.getTargetResult = 1 then [.printfStdout none] else []) ++
       [.printfStdout (some (toString o.getTargetResult ++ "\n"))] ∧
     (toplevel_main argc argv o).events.getLast? = some .disposeBuilder) := by
  intro argc argv o
  refine ⟨⟨?_, ?_⟩, ⟨?_, ?_⟩, ⟨?_, ?_⟩⟩
  · by_cases h1 : o.writeBitcodeResult = 0 <;>
      simp [chapter1_main, buildSumPrologue_eq, sumFunction, h1, Event.isPrint]
  · by_cases h1 : o.writeBitcodeResult = 0 <;>
      simp [chapter1_main, buildSumPrologue_eq, sumFunction, h1]
  · by_cases h3 : o.getTargetResult = 0 <;>
      by_cases h4 : o.emitObjResult = 0 <;>
        by_cases h5 : o.emitAsmResult = 0 <;>
          simp [chapter2_main, buildSumPrologue_eq, sumFunction, h3, h4, h5, Event.isPrint]
  · by_cases h3 : o.getTargetResult = 0 <;>
      by_cases h4 : o.emitObjResult = 0 <;>
        by_cases h5 : o.emitAsmResult = 0 <;>
          simp [chapter2_main, buildSumPrologue_eq, sumFunction, h3, h4, h5]
  · by_cases h1 : o.writeBitcodeResult = 0 <;>
      by_cases h2 : o.getTargetResult = 1 <;>
        simp [toplevel_main, buildSumPrologue_eq, sumFunction, h1, h2, Event.isPrint]
  · by_cases h1 : o.writeBitcodeResult = 0 <;>
      by_cases h2 : o.getTargetResult = 1 <;>
        simp [toplevel_main, buildSumPrologue_eq, sumFunction, h1, h2]

/-- C8: the top-level program prints the target-lookup error message
exactly when LLVMGetTargetFromTriple returns 1, so any other nonzero
failure result is silently ignored there, while the Chapter2 program
prints it for every nonzero result (stated on runs where the other
checked calls, the two emits, succeed, so that the lookup branch is the
only source of that print). -/
theorem c8_triple_error_condition : ∀ (argc : Nat) (argv : List String) (o : Oracle),
    ((Event.printfStdout none ∈ (toplevel_main argc argv o).events) ↔
       o.getTargetResult = 1) ∧
    (o.emitObjResult = 0 → o.emitAsmResult = 0 →
      ((Event.printfStdout none ∈ (chapter2_main argc argv o).events) ↔
         o.getTargetResult ≠ 0)) := by
  intro argc argv o
  constructor
  · by_cases h1 : o.writeBitcodeResult = 0 <;>
      by_cases h2 : o.getTargetResult = 1 <;>
        simp [toplevel_main, buildSumPrologue_eq, sumFunction, h1, h2]
  · intro h4 h5
    by_cases h3 : o.getTargetResult = 0 <;>
      simp [chapter2_main, buildSumPrologue_eq, sumFunction, h3, h4, h5]

/-- C8 witness: on the oracle whose target lookup returns 1 and whose
emits succeed, both programs print the message. -/
theorem c8_triple_error_condition_witness :
    Event.printfStdout none ∈ (toplevel_main 0 [] oracleTripleFail).events ∧
    Event.printfStdout none ∈ (chapter2_main 0 [] oracleTripleFail).events := by
  have h := c8_triple_error_condition 0 [] oracleTripleFail
  exact ⟨h.1.mpr rfl, (h.2 rfl rfl).mpr (by decide)⟩

/-- C9: the top-level program passes the uninitialized error pointers to
the lookup and emission calls (the errPtr argument recorded is the
undefined none), dereferences the uninitialized targetRef unconditionally
when creating the target machine, and dereferences the uninitialized
errPtrTriple when the lookup returns 1; and in Chapter2, when the lookup
and both emits fail, each of the three error branches prints the
dereference of an uninitialized error pointer (three undefined prints). -/
theorem c9_uninitialized_pointer_reads : ∀ (argc : Nat) (argv : List String) (o : Oracle),
    Event.getTargetFromTriple "x86_64" none o.getTargetResult
      ∈ (toplevel_main argc argv o).events ∧
    Event.createTargetMachine none "x86_64" "" ""
      ∈ (toplevel_main argc argv o).events ∧
    Event.targetMachineEmitToFile "my_module" "spec_sum.bc"
        .LLVMObjectFile none o.emitFileResult ∈ (toplevel_main argc argv o).events ∧
    Event.targetMachineEmitToMemoryBuffer "my_module" .LLVMObjectFile none
      ∈ (toplevel_main argc argv o).events ∧
    (o.getTargetResult = 1 →
      Event.printfStdout none ∈ (toplevel_main argc argv o).events) ∧
    (o.getTargetResult ≠ 0 → o.emitObjResult ≠ 0 → o.emitAsmResult ≠ 0 →
      (chapter2_main argc argv o).events.count (Event.printfStdout none) = 3) := by
  intro argc argv o
  refine ⟨?_, ?_, ?_, ?_, ?_, ?_⟩
  · simp [toplevel_main, buildSumPrologue_eq, sumFunction]
  · simp [toplevel_main, buildSumPrologue_eq, sumFunction]
  · simp [toplevel_main, buildSumPrologue_eq, sumFunction]
  · simp [toplevel_main, buildSumPrologue_eq, sumFunction]
  · intro h2
    simp [toplevel_main, buildSumPrologue_eq, sumFunction, h2]
  · intro h3 h4 h5
    simp [chapter2_main, buildSumPrologue_eq, sumFunction, h3, h4, h5, List.count_cons]

/-- C9 witness: on the oracle where the lookup and both emits fail, the
undefined reads happen concretely. -/
theorem c9_uninitialized_pointer_reads_witness :
    Event.createTargetMachine none "x86_64" "" ""
      ∈ (toplevel_main 0 [] oracleAllFail).events ∧
    Event.printfStdout none ∈ (toplevel_main 0 [] oracleAllFail).events ∧
    (chapter2_main 0 [] oracleAllFail).events.count (Event.printfStdout none) = 3 := by
  have h := c9_uninitialized_pointer_reads 0 [] oracleAllFail
  exact ⟨h.2.1, h.2.2.2.2.1 rfl,
         h.2.2.2.2.2 (by decide) (by decide) (by decide)⟩

end LLVMC
